import Mathlib

/-!
Shallow embedding of the setup-state detection and reconciliation logic of the
`unreal-git-plugin-manager` repository (Go), together with proofs about it.

Conventions used throughout:
* Filesystem and subprocess probes are modelled by passing their observed
  results as explicit arguments (for straight-line code), or by an explicit
  filesystem state (for the link-manager functions, which mutate the disk).
* Go strings are Lean `String`s; Go `error` results are `Except String`
  or an explicit `Bool`/`Option` as noted at each definition.
* Each definition carries a comment naming the Go source it is translated from.
-/

namespace UEGPM

/-! ## Detection: `internal/detection/detection.go`

`detectEngineSetupStatus` probes the environment five times (worktree
existence, junction existence, junction verification, binaries check, stock
plugin status) and then computes the rest of the `SetupStatus` structure
purely.  The embedding takes the probe results as arguments and performs the
same pure computation, in the same order, as the Go function. -/

/-- The `SetupStatus` struct of `internal/detection/detection.go` (fields
`EngineVersion`/`EnginePath` omitted: they are copied through unchanged and
take no part in the detection logic). -/
structure SetupStatus where
  isSetupComplete : Bool
  junctionExists : Bool
  junctionValid : Bool
  binariesExist : Bool
  worktreeExists : Bool
  stockPluginStatus : String
  issues : List String
  isNeverSetUp : Bool
  isBroken : Bool
  deriving Repr, DecidableEq

/-- `detectEngineSetupStatus` (detection.go lines 83-145), as a function of the
five observed probe results:
`worktreeExists` = `d.git.WorktreeExists(version)`,
`junctionExists` = `d.plugin.JunctionExists(pluginLinkPath)`,
`verifyJunction` = `d.plugin.VerifyJunction(enginePath, worktreePath)` (only
consulted when the junction exists, as in the source),
`binariesCheck` = `d.checkBinariesExist(binariesPath)` (only consulted when the
worktree exists, as in the source), and
`stockStatus` = `d.engine.GetStockPluginStatus(enginePath)`. -/
def detectEngineSetupStatus (worktreeExists junctionExists verifyJunction binariesCheck : Bool)
    (stockStatus : String) : SetupStatus :=
  -- status starts zero-valued; issues accumulate in source order
  let issues : List String := []
  let issues := if !worktreeExists then issues ++ ["Worktree does not exist"] else issues
  let issues :=
    if !junctionExists then issues ++ ["Plugin junction does not exist"]
    else if !verifyJunction then issues ++ ["Plugin junction points to incorrect location"]
    else issues
  -- JunctionValid is only assigned inside the `else` branch of the junction check
  let junctionValid := junctionExists && verifyJunction
  -- BinariesExist is only assigned when the worktree exists
  let binariesExist := worktreeExists && binariesCheck
  let issues :=
    if worktreeExists && !binariesCheck then issues ++ ["Plugin binaries not found in worktree"]
    else issues
  let issues :=
    if stockStatus == "enabled" then
      issues ++ ["Stock Git plugin is still enabled (may cause conflicts)"]
    else issues
  let isSetupComplete := worktreeExists && junctionExists && junctionValid &&
    binariesExist && (stockStatus != "enabled")
  let isNeverSetUp := !worktreeExists && !junctionExists
  let isBroken := !isNeverSetUp && !isSetupComplete
  { isSetupComplete := isSetupComplete
    junctionExists := junctionExists
    junctionValid := junctionValid
    binariesExist := binariesExist
    worktreeExists := worktreeExists
    stockPluginStatus := stockStatus
    issues := issues
    isNeverSetUp := isNeverSetUp
    isBroken := isBroken }

/-- The issue-display gate of `GetSetupSummary` (detection.go line 215): issues
are rendered only when `status.IsBroken && len(status.Issues) > 0`. -/
def summaryShowsIssues (st : SetupStatus) : Bool :=
  st.isBroken && decide (st.issues.length > 0)

/-! ## Version comparison: `internal/engine/engine.go`

`compareVersions` (engine.go lines 223-267) loops an index `i` from `0` to
`max(len(parts1), len(parts2))`; a component whose index is out of range keeps
the zero values `num = 0`, `err = nil` of its `var` declarations.  The
index-based loop is rendered as simultaneous structural recursion on the two
component lists.  Go's `strconv.Atoi` is modelled by `atoi` below (optional
sign followed by digits, value within the signed 64-bit range; anything else
errors), `strings.Split` by
`stringsSplit`, and `strings.Compare` by `stringsCompare` (UTF-8 byte order
coincides with code-point order, which Lean's `String` order implements). -/

/-- Lexicographic strict order on character lists by code point (equal to
UTF-8 byte order, which is what Go string comparison uses). -/
def charListLt : List Char → List Char → Bool
  | [], [] => false
  | [], _ :: _ => true
  | _ :: _, [] => false
  | a :: as, b :: bs =>
    if a.toNat < b.toNat then true
    else if b.toNat < a.toNat then false
    else charListLt as bs

/-- Go `strings.Compare`: `0` if `a == b`, `-1` if `a < b`, `+1` otherwise. -/
def stringsCompare (a b : String) : Int :=
  if charListLt a.data b.data then -1 else if a = b then 0 else 1

/-- Split a character list at every occurrence of `sep` (the splitting core of
Go `strings.Split`): `"a.b" ↦ ["a","b"]`, `"" ↦ [""]`, `"a..b" ↦ ["a","","b"]`. -/
def splitCharList (sep : Char) : List Char → List (List Char)
  | [] => [[]]
  | c :: rest =>
    let r := splitCharList sep rest
    if c = sep then [] :: r
    else
      match r with
      | [] => [[c]] -- unreachable: splitCharList never returns []
      | h :: t => (c :: h) :: t

/-- Go `strings.Split(s, sep)` for a one-character separator. -/
def stringsSplit (s : String) (sep : Char) : List String :=
  (splitCharList sep s.data).map (fun cs => String.mk cs)

/-- Digit-string to number; `none` on an empty string or any non-digit. -/
def digitsToNatAux : List Char → Nat → Option Nat
  | [], acc => some acc
  | c :: rest, acc =>
    if c.isDigit then digitsToNatAux rest (acc * 10 + (c.toNat - '0'.toNat)) else none

/-- Parse an unsigned decimal digit run. -/
def digitsToNat : List Char → Option Nat
  | [] => none
  | ds => digitsToNatAux ds 0

/-- Go `strconv.Atoi` on the 64-bit targets this tool builds for: an optional
sign followed by at least one decimal digit, whose value must fit in a signed
64-bit integer.  An empty or non-numeric string and an out-of-range value all
yield a non-nil error (modelled `none`); `compareVersions` answers an erring
component pair with the string-comparison fallback. -/
def atoi (s : String) : Option Int :=
  match s.data with
  | '-' :: ds =>
    (digitsToNat ds).bind (fun n =>
      if n ≤ 9223372036854775808 then some (-(n : Int)) else none)
  | '+' :: ds =>
    (digitsToNat ds).bind (fun n =>
      if n ≤ 9223372036854775807 then some ((n : Int)) else none)
  | ds =>
    (digitsToNat ds).bind (fun n =>
      if n ≤ 9223372036854775807 then some ((n : Int)) else none)

/-- The `compareVersions` loop once `parts2` is exhausted: the right-hand
component keeps the zero values `num2 = 0`, `err2 = nil`. -/
def compareVersionsLead : List String → Int
  | [] => 0
  | p1 :: rest1 =>
    match atoi p1 with
    | some n1 => if n1 < 0 then -1 else if n1 > 0 then 1 else compareVersionsLead rest1
    | none => 1 -- err1 != nil and i < len(parts1): return 1

/-- The `compareVersions` loop once `parts1` is exhausted: the left-hand
component keeps the zero values `num1 = 0`, `err1 = nil`. -/
def compareVersionsTail : List String → Int
  | [] => 0
  | p2 :: rest2 =>
    match atoi p2 with
    | some n2 => if (0 : Int) < n2 then -1 else if n2 < 0 then 1 else compareVersionsTail rest2
    | none => -1 -- err2 != nil and i >= len(parts1): return -1

/-- The body of the `compareVersions` loop over the two component lists. -/
def compareVersionsAux : List String → List String → Int
  | [], l2 => compareVersionsTail l2
  | p1 :: rest1, [] => compareVersionsLead (p1 :: rest1)
  | p1 :: rest1, p2 :: rest2 =>
    match atoi p1, atoi p2 with
    | some n1, some n2 =>
      if n1 < n2 then -1 else if n1 > n2 then 1 else compareVersionsAux rest1 rest2
    | _, _ =>
      -- either Atoi failed with both indices in range: string-compare this pair
      stringsCompare p1 p2

/-- `compareVersions` (engine.go lines 223-267): split on `.` and compare
component-wise. -/
def compareVersions (v1 v2 : String) : Int :=
  compareVersionsAux (stringsSplit v1 '.') (stringsSplit v2 '.')

/-! ## Git manager: `GetDefaultBranch` (git package, `src/unnamed/part_004`) -/

/-- Result of running an external command: its standard output, or a non-nil
Go error from `cmd.Output()`. -/
inductive CmdResult
  | ok (output : String)
  | err
  deriving Repr, DecidableEq

/-- Substring test on character lists (the search core of Go
`strings.Contains`). -/
def containsSubList (pat : List Char) : List Char → Bool
  | [] => pat.isEmpty
  | c :: rest => pat.isPrefixOf (c :: rest) || containsSubList pat rest

/-- Go `strings.Contains`. -/
def stringsContains (s sub : String) : Bool :=
  containsSubList sub.data s.data

/-- Split a character list at every character satisfying `p`. -/
def splitCharListP (p : Char → Bool) : List Char → List (List Char)
  | [] => [[]]
  | c :: rest =>
    let r := splitCharListP p rest
    if p c then [] :: r
    else
      match r with
      | [] => [[c]] -- unreachable: splitCharListP never returns []
      | h :: t => (c :: h) :: t

/-- Go `strings.Fields`: the maximal whitespace-free substrings. -/
def stringsFields (s : String) : List String :=
  ((splitCharListP (fun c => c.isWhitespace) s.data).filter
    (fun w => !w.isEmpty)).map (fun cs => String.mk cs)

/-- The line scan of `GetDefaultBranch`: the first line containing
`"HEAD branch:"` that has at least three whitespace fields yields field 2;
a containing line with fewer fields is skipped (the Go loop continues). -/
def findHeadBranch : List String → Option String
  | [] => none
  | line :: rest =>
    if stringsContains line "HEAD branch:" then
      let parts := stringsFields line
      if 3 ≤ parts.length then some (parts.getD 2 "") else findHeadBranch rest
    else findHeadBranch rest

/-- `GetDefaultBranch` (git manager, `src/unnamed/part_004` lines 161-180),
as a function of the `git remote show origin` outcome.  The second component
models the Go `error` result (`true` = non-nil).  On command failure the
source executes `return "dev", err` — the fallback string together with a
NON-nil error; only the parse-miss fallback (`return "dev", nil`) succeeds. -/
def GetDefaultBranch (remoteShow : CmdResult) : String × Bool :=
  match remoteShow with
  | .err => ("dev", true) -- return "dev", err : the query error is propagated
  | .ok output =>
    match findHeadBranch (stringsSplit output '\n') with
    | some branch => (branch, false)
    | none => ("dev", false) -- return "dev", nil : fallback to dev

/-- Step 4 of `runFirstTimeSetup` (menu.go lines 326-333): the setup aborts
whenever `GetDefaultBranch` reports a non-nil error. -/
def runFirstTimeSetupBranchStep (remoteShow : CmdResult) : Except String String :=
  let r := GetDefaultBranch remoteShow
  if r.2 then Except.error "failed to get default branch" else Except.ok r.1

/-! ## Menu transition flows: `internal/menu/menu.go`

Each flow calls out to the git / plugin / engine managers in sequence.  The
embedding records the sequence of manager calls (the trace) and threads an
environment `OpEnv` giving each call's outcome; a failing call aborts the
remaining steps exactly where the Go code returns the error.  Calls whose
failure the Go code merely logs are marked at each definition. -/

/-- The manager calls the menu flows can make. -/
inductive Action
  | cloneOrigin
  | createEngineBranch
  | createWorktree
  | createJunction
  | buildForEngine
  | removeJunction
  | removeWorktree
  | disableStockPlugin
  | enableStockPlugin
  | addEngineRecord (stockPluginDisabledByTool : Bool)
  | removeOrigin
  | removeConfigFile
  deriving Repr, DecidableEq

/-- Outcomes of the manager calls and of the environment probes made by the
menu flows. -/
structure OpEnv where
  cloneOriginOk : Bool
  createEngineBranchOk : Bool
  createWorktreeOk : Bool
  createJunctionOk : Bool
  buildOk : Bool
  disableOk : Bool
  enableOk : Bool
  removeJunctionOk : Bool
  removeWorktreeOk : Bool
  originCloned : Bool
  collisionDetected : Bool
  userConfirmsDisable : Bool
  deriving Repr, DecidableEq

/-- Every call succeeds; the origin is not yet cloned; a collision is
detected and the user confirms disabling the stock plugin. -/
def OpEnv.allOk : OpEnv :=
  ⟨true, true, true, true, true, true, true, true, true, false, true, true⟩

/-- Sequence two traced steps: the second runs only if the first succeeded
(the Go flows `return` on the first failing call). -/
def thenStep (acc : List Action × Except String Unit)
    (step : List Action × Except String Unit) : List Action × Except String Unit :=
  match acc with
  | (tr, .ok _) => (tr ++ step.1, step.2)
  | (tr, .error e) => (tr, .error e)

/-- `setupEngine` (menu.go lines 439-499): engine branch → worktree →
junction → build → collision-prompted stock-plugin disable (failure only
logged) → record the engine entry with the `StockPluginDisabledByTool` flag. -/
def setupEngine (env : OpEnv) : List Action × Except String Unit :=
  let s0 : List Action × Except String Unit := ([], Except.ok ())
  let s1 := thenStep s0 ([Action.createEngineBranch],
    if env.createEngineBranchOk then Except.ok () else Except.error "failed to create engine branch")
  let s2 := thenStep s1 ([Action.createWorktree],
    if env.createWorktreeOk then Except.ok () else Except.error "failed to create worktree")
  let s3 := thenStep s2 ([Action.createJunction],
    if env.createJunctionOk then Except.ok () else Except.error "failed to create junction")
  let s4 := thenStep s3 ([Action.buildForEngine],
    if env.buildOk then Except.ok () else Except.error "failed to build plugin")
  -- collision check and Confirm prompt; DisableStockPlugin failure is a warning
  let disabledByTool := env.collisionDetected && env.userConfirmsDisable && env.disableOk
  let s5 := thenStep s4
    (if env.collisionDetected && env.userConfirmsDisable then
      ([Action.disableStockPlugin], Except.ok ())
    else ([], Except.ok ()))
  thenStep s5 ([Action.addEngineRecord disabledByTool], Except.ok ())

/-- `runSetupForEngine` (menu.go lines 1132-1167): clone origin if absent →
worktree → build → junction → unconditional stock-plugin disable. -/
def runSetupForEngine (env : OpEnv) : List Action × Except String Unit :=
  let s0 : List Action × Except String Unit := ([], Except.ok ())
  let s1 := thenStep s0
    (if !env.originCloned then
      ([Action.cloneOrigin],
        if env.cloneOriginOk then Except.ok () else Except.error "failed to clone origin repository")
    else ([], Except.ok ()))
  let s2 := thenStep s1 ([Action.createWorktree],
    if env.createWorktreeOk then Except.ok () else Except.error "failed to create worktree")
  let s3 := thenStep s2 ([Action.buildForEngine],
    if env.buildOk then Except.ok () else Except.error "failed to build plugin")
  let s4 := thenStep s3 ([Action.createJunction],
    if env.createJunctionOk then Except.ok () else Except.error "failed to create junction")
  thenStep s4 ([Action.disableStockPlugin],
    if env.disableOk then Except.ok () else Except.error "failed to disable stock plugin")

/-- `runRepairForEngine` (menu.go lines 1211-1254): recreate worktree if
missing → rebuild if binaries missing → remove-and-recreate junction if
missing or invalid (the RemoveJunction result is dropped in the source) →
disable stock plugin if still enabled. -/
def runRepairForEngine (env : OpEnv) (st : SetupStatus) : List Action × Except String Unit :=
  let s0 : List Action × Except String Unit := ([], Except.ok ())
  let s1 := thenStep s0
    (if !st.worktreeExists then
      ([Action.createWorktree],
        if env.createWorktreeOk then Except.ok () else Except.error "failed to create worktree")
    else ([], Except.ok ()))
  let s2 := thenStep s1
    (if !st.binariesExist then
      ([Action.buildForEngine],
        if env.buildOk then Except.ok () else Except.error "failed to build plugin")
    else ([], Except.ok ()))
  let s3 := thenStep s2
    (if !st.junctionExists || !st.junctionValid then
      ([Action.removeJunction, Action.createJunction],
        if env.createJunctionOk then Except.ok () else Except.error "failed to create junction")
    else ([], Except.ok ()))
  thenStep s3
    (if st.stockPluginStatus == "enabled" then
      ([Action.disableStockPlugin],
        if env.disableOk then Except.ok () else Except.error "failed to disable stock plugin")
    else ([], Except.ok ()))

/-- The per-engine body of the batch repair `repairBrokenSetup` (menu.go lines
1595-1641): worktree if missing → create/fix junction if missing or invalid →
rebuild if binaries missing → disable stock plugin if enabled; a failing step
`continue`s to the next engine, aborting this engine's remaining steps. -/
def repairBrokenSetupEngine (env : OpEnv) (st : SetupStatus) : List Action × Except String Unit :=
  let s0 : List Action × Except String Unit := ([], Except.ok ())
  let s1 := thenStep s0
    (if !st.worktreeExists then
      ([Action.createWorktree],
        if env.createWorktreeOk then Except.ok () else Except.error "failed to create worktree")
    else ([], Except.ok ()))
  let s2 := thenStep s1
    (if !st.junctionExists || !st.junctionValid then
      ([Action.createJunction],
        if env.createJunctionOk then Except.ok () else Except.error "failed to create junction")
    else ([], Except.ok ()))
  let s3 := thenStep s2
    (if !st.binariesExist then
      ([Action.buildForEngine],
        if env.buildOk then Except.ok () else Except.error "failed to build plugin")
    else ([], Except.ok ()))
  thenStep s3
    (if st.stockPluginStatus == "enabled" then
      ([Action.disableStockPlugin],
        if env.disableOk then Except.ok () else Except.error "failed to disable stock plugin")
    else ([], Except.ok ()))

/-- The per-engine cleanup body of the bulk `runUninstall` loop (menu.go lines
670-703): remove junction, restore the stock plugin only if
`eng.StockPluginDisabledByTool`, remove worktree.  Every failure is printed
and the loop continues, so the trace does not depend on call outcomes. -/
def runUninstallEngineCleanup (stockPluginDisabledByTool : Bool) : List Action :=
  [Action.removeJunction]
    ++ (if stockPluginDisabledByTool then [Action.enableStockPlugin] else [])
    ++ [Action.removeWorktree]

/-- The bulk `runUninstall` flow after the user confirms (menu.go lines
656-722), over the list of managed-engine `StockPluginDisabledByTool` flags:
per-engine cleanup, then origin removal and config-file removal (both
warn-only). -/
def runUninstall (engineFlags : List Bool) : List Action :=
  (engineFlags.map runUninstallEngineCleanup).flatten
    ++ [Action.removeOrigin, Action.removeConfigFile]

/-- `runUninstallForEngine` (menu.go lines 1257-1300): remove junction →
remove worktree → re-enable the stock plugin unconditionally (no persisted
flag is consulted) → remove the origin when no complete setups remain. -/
def runUninstallForEngine (env : OpEnv) (remainingCompleteSetups : Nat) :
    List Action × Except String Unit :=
  let s0 : List Action × Except String Unit := ([], Except.ok ())
  let s1 := thenStep s0 ([Action.removeJunction],
    if env.removeJunctionOk then Except.ok () else Except.error "failed to remove junction")
  let s2 := thenStep s1 ([Action.removeWorktree],
    if env.removeWorktreeOk then Except.ok () else Except.error "failed to remove worktree")
  let s3 := thenStep s2 ([Action.enableStockPlugin],
    if env.enableOk then Except.ok () else Except.error "failed to re-enable stock plugin")
  thenStep s3
    (if remainingCompleteSetups == 0 then ([Action.removeOrigin], Except.ok ())
    else ([], Except.ok ()))

/-! ## Link manager: `CreateJunction` / `JunctionExists`
(`src/unnamed/part_006`, the locale-independent revision of the plugin
package; the spec's `createLink`/`linkExists`)

These functions inspect and mutate the filesystem, so they are embedded
against an explicit filesystem state: a finite association list from paths to
entries plus the set of directories in which `CheckWriteAccess` succeeds.
`lstat` is raw lookup (it does not follow links); `stat` follows one level of
link; `readlink` reads a link's stored target.  `cmd /c mklink /D` is
modelled as: fail if the path is occupied, otherwise record a directory
symbolic link; `filepath.Abs` is an opaque normalization parameter `abs`. -/

/-- A filesystem object: a directory, a plain file, a symbolic link (reparse
point with `ModeSymlink` set) or an NTFS junction (reparse point that `Lstat`
reports as a directory without `ModeSymlink`). -/
inductive Entry
  | dir
  | file
  | symlink (target : String)
  | junction (target : String)
  deriving Repr, DecidableEq

/-- `fileInfo.Mode()&os.ModeSymlink != 0`. -/
def Entry.modeSymlink : Entry → Bool
  | .symlink _ => true
  | _ => false

/-- `fileInfo.IsDir()` as reported by `os.Lstat`. -/
def Entry.isDir : Entry → Bool
  | .dir => true
  | .junction _ => true
  | _ => false

/-- Whether the entry is a reparse point of either kind. -/
def Entry.isReparse : Entry → Bool
  | .symlink _ => true
  | .junction _ => true
  | _ => false

/-- The filesystem state seen by the plugin manager. -/
structure FS where
  entries : List (String × Entry)
  writableDirs : List String
  deriving Repr, DecidableEq

/-- `os.Lstat`: the entry occupying the path, without following links. -/
def FS.lstat (fs : FS) (p : String) : Option Entry :=
  (fs.entries.find? (fun pr => pr.1 == p)).map (fun pr => pr.2)

/-- `os.Readlink`: the stored target of a reparse point. -/
def FS.readlink (fs : FS) (p : String) : Option String :=
  match fs.lstat p with
  | some (.symlink t) => some t
  | some (.junction t) => some t
  | _ => none

/-- `os.Stat`: follows one level of reparse link; `none` when the path is
absent or when the link's destination is (a broken link does not resolve). -/
def FS.stat (fs : FS) (p : String) : Option Entry :=
  match fs.lstat p with
  | some (.symlink t) => fs.lstat t
  | some (.junction t) => fs.lstat t
  | e => e

/-- Removing the object at a path (`os.Remove` / `cmd /c rmdir` on a link). -/
def FS.remove (fs : FS) (p : String) : FS :=
  { fs with entries := fs.entries.filter (fun pr => !(pr.1 == p)) }

/-- Recording a new object at a currently-free path. -/
def FS.insert (fs : FS) (p : String) (e : Entry) : FS :=
  { fs with entries := (p, e) :: fs.entries }

/-- `CheckWriteAccess` (part_006 lines 588-598): whether a probe file can be
created in the directory. -/
def FS.checkWriteAccess (fs : FS) (p : String) : Bool :=
  fs.writableDirs.contains p

/-- Number of directory entries recorded at a path. -/
def FS.keyCount (fs : FS) (p : String) : Nat :=
  (fs.entries.filter (fun pr => pr.1 == p)).length

/-- A well-formed filesystem records at most one object per path. -/
abbrev FS.wf (fs : FS) : Prop :=
  (fs.entries.map Prod.fst).Nodup

deriving instance DecidableEq for Except

/-- Windows path join of two components (`filepath.Join`). -/
def joinPath (a b : String) : String := a ++ "\\" ++ b

/-- `GetPluginLinkPath` (part_006 lines 583-585):
`filepath.Join(enginePath, "Engine", "Plugins", "UEGitPlugin_PB")`. -/
def GetPluginLinkPath (enginePath : String) : String :=
  joinPath (joinPath (joinPath enginePath "Engine") "Plugins") "UEGitPlugin_PB"

/-- The `Engine\Plugins` directory of an engine. -/
def pluginsDirOf (enginePath : String) : String :=
  joinPath (joinPath enginePath "Engine") "Plugins"

/-- `IsJunction` (part_006 lines 422-459): the `FSCTL_GET_REPARSE_POINT`
device query, which succeeds exactly on reparse points. -/
def IsJunction (fs : FS) (p : String) : Bool :=
  match fs.lstat p with
  | some e => e.isReparse
  | none => false

/-- `IsJunctionSimple` (part_006 lines 461-472): `fsutil reparsepoint query`,
which returns output exactly on reparse points. -/
def IsJunctionSimple (fs : FS) (p : String) : Bool :=
  IsJunction fs p

/-- `JunctionExists` (part_006 lines 379-420): link-aware existence check via
`os.Lstat`; accepts directory symlinks and junctions, broken or not. -/
def JunctionExists (fs : FS) (path : String) : Bool :=
  match fs.lstat path with
  | none => false
  | some fileInfo =>
    -- symlink branch: readable as a link with a non-empty target
    if fileInfo.modeSymlink && ((fs.readlink path).getD "" != "") then true
    else if fileInfo.isDir then
      -- os.Readlink first (most reliable), then fsutil, then the API query
      if (fs.readlink path).getD "" != "" then true
      else if IsJunctionSimple fs path then true
      else IsJunction fs path
    else false

/-- `GetJunctionTarget` (part_006 lines 526-560).  The `dir`-output parsing
fallback is unreachable in the model because `readlink` succeeds on every
reparse point. -/
def GetJunctionTarget (fs : FS) (path : String) : Option String :=
  if !(IsJunction fs path) && !(IsJunctionSimple fs path) then none
  else fs.readlink path

/-- `VerifyJunction` (part_006 lines 563-580). -/
def VerifyJunction (abs : String → String) (fs : FS)
    (enginePath expectedWorktreePath : String) : Bool :=
  let pluginLinkPath := GetPluginLinkPath enginePath
  if !(JunctionExists fs pluginLinkPath) then false
  else
    match GetJunctionTarget fs pluginLinkPath with
    | none => false
    | some target => abs expectedWorktreePath == abs target

/-- `cmd /c mklink /D link target` (part_006 line 197): fails when something
occupies the link path, otherwise records a directory symbolic link. -/
def mklinkD (fs : FS) (link target : String) : Except String FS :=
  if (fs.lstat link).isSome then
    Except.error "Cannot create a file when that file already exists"
  else Except.ok (fs.insert link (.symlink target))

/-- The locale-agnostic verification tail of `CreateJunction` (part_006 lines
346-376): the path must now exist; a symlink must read back to the expected
worktree (after `abs` normalization); otherwise it must be a junction that
`VerifyJunction` accepts. -/
def verifyCreated (abs : String → String) (fs : FS)
    (enginePath pluginLinkPath worktreePath : String) : Except String FS :=
  match fs.lstat pluginLinkPath with
  | none => Except.error "link not created"
  | some fi =>
    if fi.modeSymlink then
      match fs.readlink pluginLinkPath with
      | none => Except.error "could not read symlink target"
      | some target =>
        if abs worktreePath != abs target then Except.error "symlink target mismatch"
        else Except.ok fs
    else if !(JunctionExists fs pluginLinkPath) then
      Except.error "created path is not a junction or symlink"
    else if !(VerifyJunction abs fs enginePath worktreePath) then
      Except.error "junction does not point to expected target"
    else Except.ok fs

/-- `mklink` invocation plus the error-recovery re-inspection of part_006
lines 195-344: on an `mklink` error the source checks whether the path is now
occupied — by a correct link (success), by a wrong-target link or a non-link
object (force-remove and retry once) — and only then reports failure.  In
this model `mklink` fails exactly when the path is occupied. -/
def mklinkAndVerify (abs : String → String) (fs : FS)
    (enginePath pluginLinkPath worktreePath : String) : Except String FS :=
  match mklinkD fs pluginLinkPath worktreePath with
  | Except.ok fs1 => verifyCreated abs fs1 enginePath pluginLinkPath worktreePath
  | Except.error _ =>
    if (fs.lstat pluginLinkPath).isSome then
      match fs.readlink pluginLinkPath with
      | some target =>
        if abs worktreePath == abs target then
          verifyCreated abs fs enginePath pluginLinkPath worktreePath
        else
          let fs1 := fs.remove pluginLinkPath
          match mklinkD fs1 pluginLinkPath worktreePath with
          | Except.ok fs2 => verifyCreated abs fs2 enginePath pluginLinkPath worktreePath
          | Except.error _ => Except.error "failed to create junction on retry"
      | none =>
        let fs1 := fs.remove pluginLinkPath
        match mklinkD fs1 pluginLinkPath worktreePath with
        | Except.ok fs2 => verifyCreated abs fs2 enginePath pluginLinkPath worktreePath
        | Except.error _ => Except.error "failed to create junction on retry"
    else Except.error "failed to create junction"

/-- The creation tail of `CreateJunction` (part_006 lines 166-193): verify the
worktree and plugins directory exist, re-check write access, force-remove any
survivor at the link path, then `mklink` and verify. -/
def createAt (abs : String → String) (fs : FS)
    (enginePath pluginLinkPath pluginsDir worktreePath : String) : Except String FS :=
  if (fs.stat worktreePath).isNone then Except.error "worktree path does not exist"
  else if (fs.stat pluginsDir).isNone then Except.error "plugins directory does not exist"
  else if !(fs.checkWriteAccess pluginsDir) then Except.error "no write access to plugins directory"
  else if (fs.stat pluginLinkPath).isSome then
    let fs1 := fs.remove pluginLinkPath
    if (fs1.stat pluginLinkPath).isSome then Except.error "path still exists after force removal"
    else mklinkAndVerify abs fs1 enginePath pluginLinkPath worktreePath
  else mklinkAndVerify abs fs enginePath pluginLinkPath worktreePath

/-- `CreateJunction` (part_006 lines 28-377), the spec's `createLink`:
check write access; detect an existing link via `Lstat`/`Readlink` (and
`JunctionExists`); if one exists with the correct target, return success
without touching anything; if it points elsewhere or a non-link object
occupies the path, remove it and verify it is gone; then create and verify. -/
def CreateJunction (abs : String → String) (fs : FS)
    (enginePath worktreePath : String) : Except String FS :=
  let pluginLinkPath := GetPluginLinkPath enginePath
  let pluginsDir := pluginsDirOf enginePath
  if !(fs.checkWriteAccess pluginsDir) then
    Except.error "insufficient permissions to create junction"
  else
    -- detection via Lstat/Readlink (lines 39-72); JunctionExists is Lstat-based
    let pathExists := (fs.lstat pluginLinkPath).isSome
    let junctionExists :=
      (pathExists && ((fs.readlink pluginLinkPath).getD "" != ""))
        || JunctionExists fs pluginLinkPath
    let readlinkTarget := (fs.readlink pluginLinkPath).getD ""
    if junctionExists && (readlinkTarget != "") then
      if abs worktreePath != abs readlinkTarget then
        -- wrong location: remove the old link and verify it is gone (79-117)
        let fs1 := fs.remove pluginLinkPath
        if (fs1.lstat pluginLinkPath).isSome then
          Except.error "old junction still exists after removal attempts"
        else createAt abs fs1 enginePath pluginLinkPath pluginsDir worktreePath
      else
        -- junction exists and points to the correct location (118-122)
        Except.ok fs
    else
      if junctionExists || pathExists then
        -- some other object occupies the path: remove it (126-161)
        let fs1 := fs.remove pluginLinkPath
        if (fs1.lstat pluginLinkPath).isSome then
          Except.error "junction still exists after removal attempts"
        else createAt abs fs1 enginePath pluginLinkPath pluginsDir worktreePath
      else createAt abs fs enginePath pluginLinkPath pluginsDir worktreePath

/-- A filesystem with a worktree directory `W` and a writable plugins
directory for engine `E`. -/
def fsExample : FS := ⟨[("W", Entry.dir), ("E\\Engine\\Plugins", Entry.dir)], ["E\\Engine\\Plugins"]⟩

/-- `fsExample` after `CreateJunction` has recorded the plugin link. -/
def fsExampleLinked : FS := fsExample.insert (GetPluginLinkPath "E") (Entry.symlink "W")

/-- A filesystem holding a directory symlink `L` and a junction `J` whose
destinations have both been deleted. -/
def fsBroken : FS := ⟨[("L", Entry.symlink "gone"), ("J", Entry.junction "gone2")], []⟩

/-! ## Theorems about the detector and the version comparator -/

/-- Characters with equal code points are equal. -/
theorem char_toNat_inj {a b : Char} (h : a.toNat = b.toNat) : a = b :=
  Char.ext (UInt32.toNat.inj h)

/-- Strings with equal character data are equal. -/
theorem string_data_inj {a b : String} (h : a.data = b.data) : a = b := by
  cases a; cases b; simp_all

/-- `charListLt` is asymmetric. -/
theorem charListLt_asymm : ∀ as bs, charListLt as bs = true → charListLt bs as = false := by
  intro as
  induction as with
  | nil =>
    intro bs hb
    cases bs with
    | nil => simp [charListLt] at hb
    | cons b bs => simp [charListLt]
  | cons a as ih =>
    intro bs hb
    cases bs with
    | nil => simp [charListLt] at hb
    | cons b bs =>
      by_cases h1 : a.toNat < b.toNat
      · have h2 : ¬ b.toNat < a.toNat := by omega
        simp [charListLt, h1, h2]
      · by_cases h2 : b.toNat < a.toNat
        · simp [charListLt, h1, h2] at hb
        · simp [charListLt, h1, h2] at hb ⊢
          exact ih bs hb

/-- `charListLt` is connected: mutually incomparable lists are equal. -/
theorem charListLt_conn : ∀ as bs, charListLt as bs = false → charListLt bs as = false →
    as = bs := by
  intro as
  induction as with
  | nil =>
    intro bs h1 h2
    cases bs with
    | nil => rfl
    | cons b bs => simp [charListLt] at h1
  | cons a as ih =>
    intro bs h1 h2
    cases bs with
    | nil => simp [charListLt] at h2
    | cons b bs =>
      by_cases hab : a.toNat < b.toNat
      · simp [charListLt, hab] at h1
      · by_cases hba : b.toNat < a.toNat
        · simp [charListLt, hba] at h2
        · have hEq : a = b := char_toNat_inj (by omega)
          subst hEq
          simp_all [charListLt]
          exact ih bs h1 h2

/-- Go `strings.Compare` is antisymmetric. -/
theorem stringsCompare_antisymm (a b : String) : stringsCompare a b = -stringsCompare b a := by
  unfold stringsCompare
  cases hab : charListLt a.data b.data with
  | true =>
    have hba := charListLt_asymm _ _ hab
    have hne : ¬ b = a := by
      intro e
      subst e
      rw [hba] at hab
      exact Bool.false_ne_true hab
    simp [hba, hne]
  | false =>
    cases hba : charListLt b.data a.data with
    | true =>
      have hne : ¬ a = b := by
        intro e
        subst e
        rw [hab] at hba
        exact Bool.false_ne_true hba
      simp [hba, hne]
    | false =>
      have hEq : a = b := string_data_inj (charListLt_conn _ _ hab hba)
      simp [hEq]

/-- The two out-of-range loops of `compareVersions` are mutual negations. -/
theorem compareVersionsLead_eq_neg_tail :
    ∀ l, compareVersionsLead l = -compareVersionsTail l := by
  intro l
  induction l with
  | nil => simp [compareVersionsLead, compareVersionsTail]
  | cons p rest ih =>
    cases h : atoi p with
    | none => simp [compareVersionsLead, compareVersionsTail, h]
    | some n =>
      simp only [compareVersionsLead, compareVersionsTail, h]
      split_ifs <;> omega

/-- The component-wise comparison loop is antisymmetric. -/
theorem compareVersionsAux_antisymm :
    ∀ l1 l2, compareVersionsAux l1 l2 = -compareVersionsAux l2 l1 := by
  intro l1
  induction l1 with
  | nil =>
    intro l2
    cases l2 with
    | nil => simp [compareVersionsAux, compareVersionsTail]
    | cons p r => simp [compareVersionsAux, compareVersionsLead_eq_neg_tail]
  | cons p1 r1 ih =>
    intro l2
    cases l2 with
    | nil => simp [compareVersionsAux, compareVersionsLead_eq_neg_tail]
    | cons p2 r2 =>
      cases h1 : atoi p1 with
      | none =>
        cases h2 : atoi p2 with
        | none => simp [compareVersionsAux, h1, h2, stringsCompare_antisymm p1 p2]
        | some n2 => simp [compareVersionsAux, h1, h2, stringsCompare_antisymm p1 p2]
      | some n1 =>
        cases h2 : atoi p2 with
        | none => simp [compareVersionsAux, h1, h2, stringsCompare_antisymm p1 p2]
        | some n2 =>
          simp only [compareVersionsAux, h1, h2]
          split_ifs <;> first | omega | exact ih r2

/-- Claim C1: the derived classification follows the specified rule — a target
with neither working copy nor link is NeverSetUp; otherwise it is Broken
exactly when not all five conditions (working copy, link, link validity, built
artifacts, competing component not enabled) hold, and Complete otherwise — and
for every combination of the observed conditions exactly one of the three
classifications holds. -/
theorem detect_classification_spec (w j v b : Bool) (s : String) :
    ((detectEngineSetupStatus w j v b s).isNeverSetUp = (!w && !j))
    ∧ ((detectEngineSetupStatus w j v b s).isSetupComplete =
        ((detectEngineSetupStatus w j v b s).worktreeExists &&
         (detectEngineSetupStatus w j v b s).junctionExists &&
         (detectEngineSetupStatus w j v b s).junctionValid &&
         (detectEngineSetupStatus w j v b s).binariesExist &&
         ((detectEngineSetupStatus w j v b s).stockPluginStatus != "enabled")))
    ∧ ((detectEngineSetupStatus w j v b s).isBroken =
        (!(!w && !j) && !(detectEngineSetupStatus w j v b s).isSetupComplete))
    ∧ ((detectEngineSetupStatus w j v b s).isNeverSetUp.toNat
        + (detectEngineSetupStatus w j v b s).isBroken.toNat
        + (detectEngineSetupStatus w j v b s).isSetupComplete.toNat = 1) := by
  cases w <;> cases j <;> cases v <;> cases b <;>
    cases h : (s == "enabled") <;> simp [detectEngineSetupStatus, bne, h]

/-- Claim C9 counterexample: a target with neither working copy nor link is
classified NeverSetUp, yet its `Issues` field is NOT empty — the detector
records the two absence issues before classifying. -/
theorem neverSetUp_issues_nonempty :
    (detectEngineSetupStatus false false false false "not_found").isNeverSetUp = true
    ∧ (detectEngineSetupStatus false false false false "not_found").issues =
        ["Worktree does not exist", "Plugin junction does not exist"]
    ∧ (detectEngineSetupStatus false false false false "not_found").issues ≠ [] := by
  refine ⟨by decide, by decide, by decide⟩

/-- Claim C9 (amended): for a NeverSetUp target no issues are *displayed* —
the summary renders the issue list only for Broken targets, and a NeverSetUp
target is never Broken — although the internal `Issues` field is non-empty. -/
theorem neverSetUp_issues_not_displayed (w j v b : Bool) (s : String)
    (h : (detectEngineSetupStatus w j v b s).isNeverSetUp = true) :
    summaryShowsIssues (detectEngineSetupStatus w j v b s) = false := by
  cases w <;> cases j <;>
    simp_all [detectEngineSetupStatus, summaryShowsIssues]

/-- Witness for `neverSetUp_issues_not_displayed` at a concrete NeverSetUp
input. -/
theorem neverSetUp_issues_not_displayed_witness :
    (detectEngineSetupStatus false false false false "not_found").isNeverSetUp = true
    ∧ summaryShowsIssues (detectEngineSetupStatus false false false false "not_found") = false :=
  ⟨by decide, neverSetUp_issues_not_displayed false false false false "not_found" (by decide)⟩

/-- Claim C10: internal coherence of every produced `SetupStatus` —
`JunctionValid` only when `JunctionExists`, and `BinariesExist` only when
`WorktreeExists` (the dependent checks are only performed, and can only
succeed, under the corresponding existence check). -/
theorem detect_coherence (w j v b : Bool) (s : String) :
    ((detectEngineSetupStatus w j v b s).junctionValid = true →
      (detectEngineSetupStatus w j v b s).junctionExists = true)
    ∧ ((detectEngineSetupStatus w j v b s).binariesExist = true →
      (detectEngineSetupStatus w j v b s).worktreeExists = true) := by
  cases w <;> cases j <;> cases v <;> cases b <;> simp [detectEngineSetupStatus]

/-- Witness for `detect_coherence` at a concrete input satisfying both
hypotheses. -/
theorem detect_coherence_witness :
    (detectEngineSetupStatus true true true true "disabled").junctionValid = true
    ∧ (detectEngineSetupStatus true true true true "disabled").junctionExists = true
    ∧ (detectEngineSetupStatus true true true true "disabled").binariesExist = true
    ∧ (detectEngineSetupStatus true true true true "disabled").worktreeExists = true :=
  ⟨by decide, (detect_coherence true true true true "disabled").1 (by decide),
    by decide, (detect_coherence true true true true "disabled").2 (by decide)⟩

/-- Claim C8 counterexample: the claim asserts a shorter operand is treated as
lower exactly when all shared components are equal, but
`compareVersions "1" "1.0"` is `0`, not negative — the missing component is
treated as the integer `0`, so `"1"` and `"1.0"` compare equal. -/
theorem compareVersions_shorter_counterexample :
    compareVersions "1" "1.0" = 0 ∧ ¬ compareVersions "1" "1.0" < 0 := by
  refine ⟨by decide, by decide⟩

/-- Claim C8 (amended): the comparator compares dot-separated components
pairwise as integers (`"5.10" > "5.4"`), is antisymmetric for all strings and
consistent with lexicographic integer comparison of parsed `(N,M)` pairs; a
missing component of the shorter operand is treated as the integer `0` (so the
shorter operand is lower exactly when the longer operand's first extra
component is positive, and equal when the extra components are zero); a
component on which `Atoi` errs — non-numeric, or a value outside the signed
64-bit range — with both sides present falls back to string comparison of
just that pair of components. -/
theorem compareVersions_spec :
    compareVersions "5.10" "5.4" = 1
    ∧ (atoi "9999999999999999999" = none
        ∧ atoi "10000000000000000000" = none
        ∧ compareVersions "1.9999999999999999999" "1.10000000000000000000" = 1)
    ∧ (∀ v1 v2, compareVersions v1 v2 = -compareVersions v2 v1)
    ∧ (∀ v1 v2 a1 a2 b1 b2 : String, ∀ n1 m1 n2 m2 : Int,
        stringsSplit v1 '.' = [a1, a2] → stringsSplit v2 '.' = [b1, b2] →
        atoi a1 = some n1 → atoi a2 = some m1 →
        atoi b1 = some n2 → atoi b2 = some m2 →
        compareVersions v1 v2 =
          (if n1 < n2 then -1 else if n2 < n1 then 1
            else if m1 < m2 then -1 else if m2 < m1 then 1 else 0))
    ∧ (∀ v1 v2 a1 b1 b2 : String, ∀ n m k : Int,
        stringsSplit v1 '.' = [a1] → stringsSplit v2 '.' = [b1, b2] →
        atoi a1 = some n → atoi b1 = some m → atoi b2 = some k →
        compareVersions v1 v2 =
          (if n < m then -1 else if m < n then 1
            else if 0 < k then -1 else if k < 0 then 1 else 0))
    ∧ (∀ v1 v2 a1 a2 b1 b2 : String, ∀ n : Int,
        stringsSplit v1 '.' = [a1, a2] → stringsSplit v2 '.' = [b1, b2] →
        atoi a1 = some n → atoi b1 = some n →
        (atoi a2 = none ∨ atoi b2 = none) →
        compareVersions v1 v2 = stringsCompare a2 b2) := by
  refine ⟨by decide, ⟨by decide, by decide, by decide⟩, ?_, ?_, ?_, ?_⟩
  · intro v1 v2
    exact compareVersionsAux_antisymm _ _
  · intro v1 v2 a1 a2 b1 b2 n1 m1 n2 m2 hv1 hv2 h1 h2 h3 h4
    unfold compareVersions
    rw [hv1, hv2]
    simp only [compareVersionsAux, h1, h2, h3, h4, compareVersionsTail]
  · intro v1 v2 a1 b1 b2 n m k hv1 hv2 h1 h3 h4
    unfold compareVersions
    rw [hv1, hv2]
    simp only [compareVersionsAux, h1, h3, h4, compareVersionsTail]
  · intro v1 v2 a1 a2 b1 b2 n hv1 hv2 h1 h3 hne
    unfold compareVersions
    rw [hv1, hv2]
    rcases hne with h2 | h4
    · cases h4 : atoi b2 <;>
        simp [compareVersionsAux, h1, h2, h3, h4]
    · cases h2 : atoi a2 <;>
        simp [compareVersionsAux, h1, h2, h3, h4]

/-- Witness for `compareVersions_spec` at concrete versions: two-component
numeric comparison, zero-padding of the shorter operand, and the string
fallback for non-numeric components. -/
theorem compareVersions_spec_witness :
    stringsSplit "5.3" '.' = ["5", "3"] ∧ atoi "5" = some 5
    ∧ compareVersions "5.3" "5.12" = -1
    ∧ compareVersions "2" "2.7" = -1
    ∧ compareVersions "5.x" "5.y" = -1 := by
  refine ⟨by decide, by decide, ?_, ?_, ?_⟩
  · have h := compareVersions_spec.2.2.2.1 "5.3" "5.12" "5" "3" "5" "12" 5 3 5 12
      (by decide) (by decide) (by decide) (by decide) (by decide) (by decide)
    rw [h]
    decide
  · have h := compareVersions_spec.2.2.2.2.1 "2" "2.7" "2" "2" "7" 2 2 7
      (by decide) (by decide) (by decide) (by decide) (by decide)
    rw [h]
    decide
  · have h := compareVersions_spec.2.2.2.2.2 "5.x" "5.y" "5" "x" "5" "y" 5
      (by decide) (by decide) (by decide) (by decide) (Or.inl (by decide))
    rw [h]
    decide

/-! ## Theorems about the transition flows -/

/-- Claim C7 (code bug): on a query failure `GetDefaultBranch` returns the
fallback `"dev"` TOGETHER WITH a non-nil error, so `runFirstTimeSetup` aborts
instead of proceeding with `"dev"`; only a parse miss yields `"dev"` as a
successful result. -/
theorem getDefaultBranch_query_failure_aborts :
    GetDefaultBranch CmdResult.err = ("dev", true)
    ∧ runFirstTimeSetupBranchStep CmdResult.err =
        Except.error "failed to get default branch"
    ∧ GetDefaultBranch (CmdResult.ok "no head line here") = ("dev", false)
    ∧ runFirstTimeSetupBranchStep (CmdResult.ok "no head line here") = Except.ok "dev"
    ∧ GetDefaultBranch (CmdResult.ok "  HEAD branch: main") = ("main", false) := by
  refine ⟨rfl, rfl, by decide, by rfl, by decide⟩

/-- Claim C2 counterexample: on a Broken target needing both a link fix and a
rebuild (worktree present, junction present but invalid, binaries missing),
`runRepairForEngine` performs the rebuild BEFORE the link remediation. -/
theorem repair_rebuild_before_link :
    (runRepairForEngine OpEnv.allOk (detectEngineSetupStatus true true false false "enabled")).1
      = [Action.buildForEngine, Action.removeJunction, Action.createJunction,
          Action.disableStockPlugin]
    ∧ (detectEngineSetupStatus true true false false "enabled").isBroken = true := by
  refine ⟨by decide, by decide⟩

/-- Claim C2 (amended): both repair flows apply only the needed remediations,
but in different orders — `runRepairForEngine` runs worktree → rebuild →
remove-and-recreate link → disable, so the rebuild precedes the link fix,
while the batch `repairBrokenSetup` body runs worktree → link → rebuild →
disable as the spec states. -/
theorem repair_remediation_order (env : OpEnv) (st : SetupStatus)
    (h1 : env.createWorktreeOk = true) (h2 : env.buildOk = true)
    (h3 : env.createJunctionOk = true) (h4 : env.disableOk = true) :
    runRepairForEngine env st =
      ((if !st.worktreeExists then [Action.createWorktree] else [])
        ++ (if !st.binariesExist then [Action.buildForEngine] else [])
        ++ (if !st.junctionExists || !st.junctionValid then
              [Action.removeJunction, Action.createJunction] else [])
        ++ (if st.stockPluginStatus == "enabled" then [Action.disableStockPlugin] else []),
        Except.ok ())
    ∧ repairBrokenSetupEngine env st =
      ((if !st.worktreeExists then [Action.createWorktree] else [])
        ++ (if !st.junctionExists || !st.junctionValid then [Action.createJunction] else [])
        ++ (if !st.binariesExist then [Action.buildForEngine] else [])
        ++ (if st.stockPluginStatus == "enabled" then [Action.disableStockPlugin] else []),
        Except.ok ()) := by
  obtain ⟨c, je, jv, be, we, sp, is, nv, br⟩ := st
  cases we <;> cases be <;> cases je <;> cases jv <;> cases hs : sp == "enabled" <;>
    simp [runRepairForEngine, repairBrokenSetupEngine, thenStep, h1, h2, h3, h4, hs]

/-- Witness for `repair_remediation_order` on a Broken status needing every
remediation. -/
theorem repair_remediation_order_witness :
    OpEnv.allOk.createWorktreeOk = true
    ∧ runRepairForEngine OpEnv.allOk (detectEngineSetupStatus false true false false "enabled") =
        ([Action.createWorktree, Action.buildForEngine, Action.removeJunction,
          Action.createJunction, Action.disableStockPlugin], Except.ok ())
    ∧ repairBrokenSetupEngine OpEnv.allOk (detectEngineSetupStatus false true false false "enabled") =
        ([Action.createWorktree, Action.createJunction, Action.buildForEngine,
          Action.disableStockPlugin], Except.ok ()) := by
  have h := repair_remediation_order OpEnv.allOk
    (detectEngineSetupStatus false true false false "enabled") rfl rfl rfl rfl
  refine ⟨rfl, ?_, ?_⟩
  · rw [h.1]; exact rfl
  · rw [h.2]; exact rfl

/-- Claim C5 counterexample: in `runSetupForEngine` the build is invoked
BEFORE the link is created, and the stock plugin is disabled unconditionally
after the build. -/
theorem setup_build_before_link :
    (runSetupForEngine OpEnv.allOk).1
      = [Action.cloneOrigin, Action.createWorktree, Action.buildForEngine,
          Action.createJunction, Action.disableStockPlugin]
    ∧ (runSetupForEngine OpEnv.allOk).1.indexOf Action.buildForEngine
        < (runSetupForEngine OpEnv.allOk).1.indexOf Action.createJunction := by
  refine ⟨by decide, by decide⟩

/-- Claim C5 (amended): the first-time-setup flow `setupEngine` runs engine
branch → worktree → link → build → collision-prompted disable → record (the
link exists before the build, but the competing component is disabled after
the build, and the record's flag is set only when the disable succeeded); the
per-engine `runSetupForEngine` instead runs clone-if-needed → worktree →
build → link → unconditional disable, invoking the build before link
creation. -/
theorem install_step_order (env : OpEnv)
    (h1 : env.createEngineBranchOk = true) (h2 : env.createWorktreeOk = true)
    (h3 : env.createJunctionOk = true) (h4 : env.buildOk = true)
    (h5 : env.cloneOriginOk = true) (h6 : env.disableOk = true) :
    setupEngine env =
      ([Action.createEngineBranch, Action.createWorktree, Action.createJunction,
        Action.buildForEngine]
        ++ (if env.collisionDetected && env.userConfirmsDisable then
              [Action.disableStockPlugin] else [])
        ++ [Action.addEngineRecord
              (env.collisionDetected && env.userConfirmsDisable && env.disableOk)],
        Except.ok ())
    ∧ runSetupForEngine env =
      ((if !env.originCloned then [Action.cloneOrigin] else [])
        ++ [Action.createWorktree, Action.buildForEngine, Action.createJunction,
            Action.disableStockPlugin], Except.ok ()) := by
  cases hc : env.collisionDetected <;> cases hu : env.userConfirmsDisable <;>
    cases ho : env.originCloned <;>
      simp [setupEngine, runSetupForEngine, thenStep, h1, h2, h3, h4, h5, h6, hc, hu, ho]

/-- Witness for `install_step_order` in the all-success environment. -/
theorem install_step_order_witness :
    OpEnv.allOk.createEngineBranchOk = true
    ∧ setupEngine OpEnv.allOk =
        ([Action.createEngineBranch, Action.createWorktree, Action.createJunction,
          Action.buildForEngine, Action.disableStockPlugin, Action.addEngineRecord true],
          Except.ok ())
    ∧ runSetupForEngine OpEnv.allOk =
        ([Action.cloneOrigin, Action.createWorktree, Action.buildForEngine,
          Action.createJunction, Action.disableStockPlugin], Except.ok ()) := by
  have h := install_step_order OpEnv.allOk rfl rfl rfl rfl rfl rfl
  refine ⟨rfl, ?_, ?_⟩
  · rw [h.1]; exact rfl
  · rw [h.2]; exact rfl

/-- Claim C6 counterexample: `runUninstallForEngine` re-enables the stock
plugin unconditionally — it consults no `StockPluginDisabledByTool` flag, so
its trace contains the restore step regardless of any persisted record. -/
theorem perEngine_uninstall_enables_unconditionally :
    (runUninstallForEngine OpEnv.allOk 0).1
      = [Action.removeJunction, Action.removeWorktree, Action.enableStockPlugin,
          Action.removeOrigin]
    ∧ Action.enableStockPlugin ∈ (runUninstallForEngine OpEnv.allOk 0).1 := by
  refine ⟨by decide, by decide⟩

/-- Claim C6 (amended): the bulk `runUninstall` restores the stock plugin only
when the record's `StockPluginDisabledByTool` flag is set, and removes the
junction and worktree either way; the per-engine `runUninstallForEngine`
instead re-enables unconditionally. -/
theorem uninstall_restore_gated (flag : Bool) (flags : List Bool) (env : OpEnv)
    (h1 : env.removeJunctionOk = true) (h2 : env.removeWorktreeOk = true)
    (h3 : env.enableOk = true) :
    ((Action.enableStockPlugin ∈ runUninstallEngineCleanup flag) ↔ flag = true)
    ∧ Action.removeJunction ∈ runUninstallEngineCleanup flag
    ∧ Action.removeWorktree ∈ runUninstallEngineCleanup flag
    ∧ runUninstall flags =
        ((flags.map runUninstallEngineCleanup).flatten
          ++ [Action.removeOrigin, Action.removeConfigFile])
    ∧ runUninstallForEngine env 1 =
        ([Action.removeJunction, Action.removeWorktree, Action.enableStockPlugin],
          Except.ok ()) := by
  cases flag <;>
    simp [runUninstallEngineCleanup, runUninstall, runUninstallForEngine, thenStep, h1, h2, h3]

/-- Witness for `uninstall_restore_gated` with the flag unset: the restore
step is skipped while junction and worktree removal still occur. -/
theorem uninstall_restore_gated_witness :
    runUninstallEngineCleanup false = [Action.removeJunction, Action.removeWorktree]
    ∧ Action.removeWorktree ∈ runUninstallEngineCleanup false
    ∧ runUninstallForEngine OpEnv.allOk 1 =
        ([Action.removeJunction, Action.removeWorktree, Action.enableStockPlugin],
          Except.ok ()) := by
  have h := uninstall_restore_gated false [false] OpEnv.allOk rfl rfl rfl
  exact ⟨by decide, h.2.2.1, h.2.2.2.2⟩

/-! ## Theorems about the link manager -/

/-- Filtering out a key makes its lookup fail. -/
theorem find?_filter_not (l : List (String × Entry)) (p : String) :
    (l.filter (fun pr => !(pr.1 == p))).find? (fun pr => pr.1 == p) = none := by
  rw [List.find?_eq_none]
  intro x hx
  rw [List.mem_filter] at hx
  simpa using hx.2

/-- After `remove p` nothing occupies `p`. -/
theorem lstat_remove_self (fs : FS) (p : String) : (fs.remove p).lstat p = none := by
  simp [FS.remove, FS.lstat, find?_filter_not]

/-- `insert` records the new entry at its path. -/
theorem lstat_insert_self (fs : FS) (p : String) (e : Entry) :
    (fs.insert p e).lstat p = some e := by
  simp [FS.insert, FS.lstat, List.find?]

/-- An inserted symlink reads back to its target. -/
theorem readlink_insert_symlink (fs : FS) (p t : String) :
    (fs.insert p (Entry.symlink t)).readlink p = some t := by
  simp [FS.readlink, lstat_insert_self]

/-- A path with no entry does not resolve. -/
theorem stat_none_of_lstat_none {fs : FS} {p : String} (h : fs.lstat p = none) :
    fs.stat p = none := by
  simp [FS.stat, h]

/-- A readable link occupies its path. -/
theorem lstat_isSome_of_readlink {fs : FS} {p t : String}
    (h : fs.readlink p = some t) : (fs.lstat p).isSome = true := by
  unfold FS.readlink at h
  cases hl : fs.lstat p with
  | none => rw [hl] at h; cases h
  | some e => simp

/-- With no readable target the Lstat-based existence check is negative
(every reparse point in the model has a readable target). -/
theorem junctionExists_of_readlink_none {fs : FS} {p : String}
    (h : fs.readlink p = none) : JunctionExists fs p = false := by
  unfold JunctionExists
  cases hl : fs.lstat p with
  | none => rfl
  | some e =>
    unfold FS.readlink at h
    rw [hl] at h
    cases e <;> simp_all [Entry.modeSymlink, Entry.isDir, Entry.isReparse,
      IsJunctionSimple, IsJunction, FS.readlink, hl]

/-- `remove` and `insert` do not change write access. -/
theorem checkWriteAccess_remove (fs : FS) (p q : String) :
    (fs.remove p).checkWriteAccess q = fs.checkWriteAccess q := rfl

/-- `insert` does not change write access. -/
theorem checkWriteAccess_insert (fs : FS) (p : String) (e : Entry) (q : String) :
    (fs.insert p e).checkWriteAccess q = fs.checkWriteAccess q := rfl

/-- An unoccupied path has no entries. -/
theorem keyCount_eq_zero_of_lstat_none {fs : FS} {p : String}
    (h : fs.lstat p = none) : fs.keyCount p = 0 := by
  have hf : fs.entries.find? (fun pr => pr.1 == p) = none := by
    cases hfind : fs.entries.find? (fun pr => pr.1 == p) with
    | none => rfl
    | some pr => rw [FS.lstat, hfind] at h; cases h
  rw [List.find?_eq_none] at hf
  have : fs.entries.filter (fun pr => pr.1 == p) = [] := by
    rw [List.filter_eq_nil_iff]
    intro a ha
    exact hf a ha
  simp [FS.keyCount, this]

/-- `insert` adds one entry at the path. -/
theorem keyCount_insert_self (fs : FS) (p : String) (e : Entry) :
    (fs.insert p e).keyCount p = fs.keyCount p + 1 := by
  simp [FS.insert, FS.keyCount]

/-- In a well-formed filesystem an occupied path has exactly one entry. -/
theorem keyCount_one_of_wf : ∀ (l : List (String × Entry)) (p : String),
    (l.map Prod.fst).Nodup → (l.find? (fun pr => pr.1 == p)).isSome = true →
    (l.filter (fun pr => pr.1 == p)).length = 1 := by
  intro l
  induction l with
  | nil => intro p _ hs; simp at hs
  | cons x xs ih =>
    intro p hnd hs
    rw [List.map_cons, List.nodup_cons] at hnd
    by_cases hx : (x.1 == p) = true
    · have hxp : x.1 = p := by simpa using hx
      have hnone : xs.filter (fun pr => pr.1 == p) = [] := by
        rw [List.filter_eq_nil_iff]
        intro a ha hap
        exact hnd.1 (hxp ▸ (by simpa using hap) ▸ List.mem_map_of_mem Prod.fst ha)
      simp [List.filter_cons, hx, hnone]
    · have hxf : (x.1 == p) = false := by simpa using hx
      rw [List.find?_cons_of_neg _ (by simp [hxf])] at hs
      simp [List.filter_cons, hxf, ih p hnd.2 hs]

/-- Successful creation from an unoccupied link path records exactly the new
directory symlink. -/
theorem createAt_ok {abs : String → String} {fs : FS} {e link pdir w : String} {fs' : FS}
    (hl : fs.lstat link = none)
    (h : createAt abs fs e link pdir w = Except.ok fs') :
    fs' = fs.insert link (Entry.symlink w) := by
  have hs : fs.stat link = none := stat_none_of_lstat_none hl
  unfold createAt at h
  rw [hs] at h
  simp only [Option.isSome_none, Bool.false_eq_true, if_false] at h
  unfold mklinkAndVerify mklinkD at h
  rw [hl] at h
  simp only [Option.isSome_none, Bool.false_eq_true, if_false] at h
  unfold verifyCreated at h
  rw [lstat_insert_self, readlink_insert_symlink] at h
  simp only [Entry.modeSymlink, bne_self_eq_false, Bool.false_eq_true, if_false, if_true] at h
  split_ifs at h
  all_goals cases h
  all_goals rfl

/-- The idempotent no-op branch: an existing link that already resolves
(after `abs` normalization) to the requested worktree makes `CreateJunction`
succeed immediately without touching the filesystem. -/
theorem createJunction_noop {abs : String → String} {fs : FS} {e w t : String}
    (hw : fs.checkWriteAccess (pluginsDirOf e) = true)
    (hr : fs.readlink (GetPluginLinkPath e) = some t)
    (ht : t ≠ "")
    (habs : abs w = abs t) :
    CreateJunction abs fs e w = Except.ok fs := by
  have hp : (fs.lstat (GetPluginLinkPath e)).isSome = true := lstat_isSome_of_readlink hr
  have htb : (t != "") = true := by simpa using ht
  simp only [CreateJunction, hw, Bool.not_true, Bool.false_eq_true, if_false,
    hp, hr, Option.getD_some, htb, Bool.and_true, Bool.true_and, Bool.true_or,
    if_true, habs, bne_self_eq_false]

/-- Characterization of every successful run of `CreateJunction`: either the
existing link already pointed (abs-equal) at the worktree and the filesystem
is unchanged, or the link path was cleared (if needed) and exactly the new
directory symlink to the worktree was recorded. -/
theorem createJunction_ok_cases {abs : String → String} {fs fs' : FS} {e w : String}
    (h : CreateJunction abs fs e w = Except.ok fs') :
    fs.checkWriteAccess (pluginsDirOf e) = true
    ∧ ((fs' = fs ∧ ∃ t, fs.readlink (GetPluginLinkPath e) = some t ∧ t ≠ "" ∧ abs w = abs t)
      ∨ (∃ fsx : FS, (fsx = fs ∨ fsx = fs.remove (GetPluginLinkPath e))
          ∧ fsx.lstat (GetPluginLinkPath e) = none
          ∧ fs' = fsx.insert (GetPluginLinkPath e) (Entry.symlink w))) := by
  by_cases hw : fs.checkWriteAccess (pluginsDirOf e) = true
  case neg =>
    exfalso
    have hwf : fs.checkWriteAccess (pluginsDirOf e) = false := by simpa using hw
    unfold CreateJunction at h
    simp [hwf] at h
  case pos =>
  refine ⟨hw, ?_⟩
  unfold CreateJunction at h
  simp only [hw, Bool.not_true, Bool.false_eq_true, if_false] at h
  cases hrl : fs.readlink (GetPluginLinkPath e) with
  | none =>
    have hje := junctionExists_of_readlink_none hrl
    simp only [hrl, hje, Option.getD_none, bne_self_eq_false, Bool.and_false,
      Bool.false_or, Bool.or_false, Bool.false_and, Bool.false_eq_true, if_false] at h
    cases hl : fs.lstat (GetPluginLinkPath e) with
    | some entry =>
      simp only [hl, Option.isSome_some, if_true, lstat_remove_self,
        Option.isSome_none, Bool.false_eq_true, if_false] at h
      exact Or.inr ⟨fs.remove _, Or.inr rfl, lstat_remove_self fs _,
        createAt_ok (lstat_remove_self fs _) h⟩
    | none =>
      simp only [hl, Option.isSome_none, Bool.false_eq_true, if_false] at h
      exact Or.inr ⟨fs, Or.inl rfl, hl, createAt_ok hl h⟩
  | some t =>
    have hp : (fs.lstat (GetPluginLinkPath e)).isSome = true := lstat_isSome_of_readlink hrl
    by_cases ht : t = ""
    · subst ht
      simp only [hrl, hp, Option.getD_some, bne_self_eq_false, Bool.and_false,
        Bool.false_or, Bool.false_eq_true, if_false, Bool.or_true, Bool.true_or,
        if_true, lstat_remove_self, Option.isSome_none] at h
      exact Or.inr ⟨fs.remove _, Or.inr rfl, lstat_remove_self fs _,
        createAt_ok (lstat_remove_self fs _) h⟩
    · have htb : (t != "") = true := by simpa using ht
      simp only [hrl, hp, Option.getD_some, htb, Bool.and_true, Bool.true_and,
        Bool.true_or, if_true] at h
      by_cases habs : (abs w != abs t) = true
      · simp only [habs, if_true, lstat_remove_self, Option.isSome_none,
          Bool.false_eq_true, if_false] at h
        exact Or.inr ⟨fs.remove _, Or.inr rfl, lstat_remove_self fs _,
          createAt_ok (lstat_remove_self fs _) h⟩
      · have habs' : abs w = abs t := by simpa using habs
        have habsf : (abs w != abs t) = false := by simpa using habs
        rw [habsf] at h
        simp only [Bool.false_eq_true, if_false] at h
        cases h
        exact Or.inl ⟨rfl, t, rfl, ht, habs'⟩

/-- A present `lstat` comes from a present `find?`. -/
theorem find?_isSome_of_lstat {fs : FS} {p : String} (h : (fs.lstat p).isSome = true) :
    (fs.entries.find? (fun pr => pr.1 == p)).isSome = true := by
  unfold FS.lstat at h
  cases hfind : fs.entries.find? (fun pr => pr.1 == p) <;> simp [hfind] at h ⊢

/-- Claim C3: `createLink` (`CreateJunction`) is idempotent — when a link
already exists at the destination and already resolves (after absolute-path
normalization `abs`) to the requested worktree, the call succeeds immediately
without removing or recreating anything; and any successful call leaves a
state on which a repeated call with the same arguments succeeds as a no-op,
with exactly one link on disk whose target resolves to the worktree. -/
theorem createJunction_idempotent (abs : String → String) (fs fs' : FS) (e w : String)
    (hwf : FS.wf fs) (hw : w ≠ "") :
    (∀ t, fs.checkWriteAccess (pluginsDirOf e) = true →
      fs.readlink (GetPluginLinkPath e) = some t → t ≠ "" → abs w = abs t →
      CreateJunction abs fs e w = Except.ok fs)
    ∧ (CreateJunction abs fs e w = Except.ok fs' →
        CreateJunction abs fs' e w = Except.ok fs'
        ∧ (∃ t, fs'.readlink (GetPluginLinkPath e) = some t ∧ abs t = abs w)
        ∧ fs'.keyCount (GetPluginLinkPath e) = 1) := by
  constructor
  · intro t h1 h2 h3 h4
    exact createJunction_noop h1 h2 h3 h4
  · intro h
    obtain ⟨hacc, hcases⟩ := createJunction_ok_cases h
    rcases hcases with ⟨heq, t, hrl, ht, habs⟩ | ⟨fsx, hfsx, hnone, heq⟩ <;> subst heq
    · refine ⟨createJunction_noop hacc hrl ht habs, ⟨t, hrl, habs.symm⟩, ?_⟩
      have hc := keyCount_one_of_wf _ (GetPluginLinkPath e) hwf
        (find?_isSome_of_lstat (lstat_isSome_of_readlink hrl))
      simpa [FS.keyCount] using hc
    · have hacc' : fsx.checkWriteAccess (pluginsDirOf e) = true := by
        rcases hfsx with rfl | rfl
        · exact hacc
        · rw [checkWriteAccess_remove]; exact hacc
      have haccI : (fsx.insert (GetPluginLinkPath e) (Entry.symlink w)).checkWriteAccess
          (pluginsDirOf e) = true := by
        rw [checkWriteAccess_insert]; exact hacc'
      refine ⟨createJunction_noop haccI (readlink_insert_symlink fsx _ w) hw rfl,
        ⟨w, readlink_insert_symlink fsx _ w, rfl⟩, ?_⟩
      rw [keyCount_insert_self, keyCount_eq_zero_of_lstat_none hnone]

/-- Witness for `createJunction_idempotent` on a concrete filesystem: the
first call records the link, the second call is a success that changes
nothing, and exactly one link pointing at the worktree remains. -/
theorem createJunction_idempotent_witness :
    FS.wf fsExample ∧ ("W" : String) ≠ ""
    ∧ CreateJunction id fsExample "E" "W" = Except.ok fsExampleLinked
    ∧ CreateJunction id fsExampleLinked "E" "W" = Except.ok fsExampleLinked
    ∧ fsExampleLinked.readlink (GetPluginLinkPath "E") = some "W"
    ∧ fsExampleLinked.keyCount (GetPluginLinkPath "E") = 1 := by
  have h := (createJunction_idempotent id fsExample fsExampleLinked "E" "W"
    (by decide) (by decide)).2 (by decide)
  exact ⟨by decide, by decide, by decide, h.1, by decide, h.2.2⟩

/-- Claim C4: `JunctionExists` (the spec's `linkExists`) is link-aware — a
path occupied by a reparse link (directory symlink or junction) whose
resolved destination has been deleted is still reported as existing: the path
does not resolve (`os.Stat` fails) yet the check returns true. -/
theorem junctionExists_broken_link (fs : FS) (path t : String)
    (h : fs.lstat path = some (Entry.symlink t) ∨ fs.lstat path = some (Entry.junction t))
    (ht : t ≠ "") (hbroken : fs.lstat t = none) :
    JunctionExists fs path = true ∧ fs.stat path = none := by
  have htb : (t != "") = true := by simpa using ht
  rcases h with h | h <;>
    simp [JunctionExists, FS.readlink, FS.stat, h, hbroken, Entry.modeSymlink,
      Entry.isDir, htb]

/-- Witness for `junctionExists_broken_link`: a broken directory symlink and a
broken junction are both still reported as existing. -/
theorem junctionExists_broken_link_witness :
    fsBroken.lstat "L" = some (Entry.symlink "gone")
    ∧ fsBroken.lstat "gone" = none
    ∧ JunctionExists fsBroken "L" = true
    ∧ fsBroken.stat "L" = none
    ∧ JunctionExists fsBroken "J" = true := by
  refine ⟨by decide, by decide, ?_, ?_, ?_⟩
  · exact (junctionExists_broken_link fsBroken "L" "gone"
      (Or.inl (by decide)) (by decide) (by decide)).1
  · exact (junctionExists_broken_link fsBroken "L" "gone"
      (Or.inl (by decide)) (by decide) (by decide)).2
  · exact (junctionExists_broken_link fsBroken "J" "gone2"
      (Or.inr (by decide)) (by decide) (by decide)).1

end UEGPM
